import Mathlib

/-!
# Verification of the Travel-Path multi-variant itinerary generation engine

A shallow embedding, in Lean 4, of the core itinerary-generation and scoring
code of the Travel-Path backend:

* `src/app/routers/trips.py` — `calculate_smart_difficulty`, the
  `generate_routes` endpoint (candidate-pool building, the three selection
  strategies, the per-variant error handling and the assembler), and
* `src/app/services/maps_service.py` — `MapsService` (the failed-transport-mode
  cache, `build_route_with_optimization` with its timeout-fallback protocol,
  and the duration / walking-distance estimators).

Modelling conventions:

* Python floats are modelled as `ℚ` (exact rational arithmetic); the special
  float values produced by `float(...)` on "inf"/"nan" literals are modelled
  by the dedicated constructors of `PyFloatVal`, so that the comparison
  semantics of non-finite floats (every `<` comparison with `nan` is false,
  etc.) is preserved.
* Python `str.replace`, `str.split`, `str.strip`, `int(...)` and `float(...)`
  are modelled on `List Char` by the `replaceList`, `splitOnChar`,
  `stripList`, `pyInt?` and `pyFloatParse?` functions below.  `pyFloatParse?`
  accepts the same inputs as CPython's `float` on ordinary literals
  (optional sign, decimal digits with optional fraction and exponent, and the
  case-insensitive "inf"/"infinity"/"nan" forms); digit-group underscores are
  the only accepted CPython form not modelled, and none of the statements
  below depends on them.
* Network collaborators (the Google Directions client) are modelled as
  oracles `String → DirectionsOutcome` passed explicitly; a Python exception
  that escapes a modelled function is modelled by an `Option`/`Except`
  failure value.
-/

/-! ## Python string and number primitives -/

/-- Whitespace characters removed by Python's `str.strip()` (the subset that
can occur in the strings handled here). -/
def isPyWS (c : Char) : Bool :=
  c = ' ' ∨ c = '\t' ∨ c = '\n' ∨ c = '\r'

/-- Python `str.strip()` on a list of characters. -/
def stripList (s : List Char) : List Char :=
  ((s.dropWhile isPyWS).reverse.dropWhile isPyWS).reverse

/-- Fuel-driven worker for `replaceList`; the fuel is the length of the
input, which bounds the number of steps. -/
def replaceListAux (pat rep : List Char) : Nat → List Char → List Char
  | _, [] => []
  | 0, s => s
  | fuel + 1, c :: rest =>
    if pat ≠ [] ∧ pat.isPrefixOf (c :: rest) then
      rep ++ replaceListAux pat rep fuel ((c :: rest).drop pat.length)
    else
      c :: replaceListAux pat rep fuel rest

/-- Python `s.replace(pat, rep)`: replace every non-overlapping occurrence of
`pat` in `s` by `rep`, scanning left to right.  (For an empty `pat` Python
inserts `rep` between all characters; that case never occurs here and the
model returns `s` unchanged.) -/
def replaceList (pat rep s : List Char) : List Char :=
  replaceListAux pat rep s.length s

/-- Python `s.split(c)` for a single-character separator `c`. -/
def splitOnChar (c : Char) : List Char → List (List Char)
  | [] => [[]]
  | x :: rest =>
    if x = c then [] :: splitOnChar c rest
    else
      match splitOnChar c rest with
      | [] => [[x]]
      | h :: t => (x :: h) :: t

/-- The numeric value of a list of decimal digits (most significant first). -/
def digitsNat (ds : List Char) : Nat :=
  ds.foldl (fun acc c => acc * 10 + (c.toNat - '0'.toNat)) 0

/-- Parse a non-empty all-digit string. -/
def digitsNat? (ds : List Char) : Option Nat :=
  if ds ≠ [] ∧ ds.all Char.isDigit then some (digitsNat ds) else none

/-- Python `int(s)`: strip whitespace, optional sign, decimal digits. -/
def pyInt? (s : List Char) : Option Int :=
  match stripList s with
  | '+' :: rest => (digitsNat? rest).map Int.ofNat
  | '-' :: rest => (digitsNat? rest).map (fun n => -(n : Int))
  | t => (digitsNat? t).map Int.ofNat

/-- The ℚ-free tokenization of a decimal float literal: sign, integer-part
digits, fraction digits and the exponent value. -/
structure DecTok where
  neg : Bool
  ip : List Char
  fp : List Char
  ex : Int
deriving DecidableEq, Repr

/-- A value as produced by Python `float(...)`: a finite value or one of the
non-finite specials. -/
inductive PyFloatVal where
  | finite (q : ℚ)
  | pinf
  | ninf
  | nan
deriving DecidableEq, Repr

/-- Tokens recognised by `float(...)`. -/
inductive PyFloatTok where
  | dec (d : DecTok)
  | pinf
  | ninf
  | nan
deriving DecidableEq, Repr

/-- Parse the exponent suffix of a float literal (empty, or `e`/`E` followed
by an optionally signed digit string). -/
def parseExp? : List Char → Option Int
  | [] => some 0
  | 'e' :: r => pyIntNoWS? r
  | 'E' :: r => pyIntNoWS? r
  | _ => none
where
  /-- Signed digit string without surrounding whitespace. -/
  pyIntNoWS? : List Char → Option Int
  | '+' :: rest => (digitsNat? rest).map Int.ofNat
  | '-' :: rest => (digitsNat? rest).map (fun n => -(n : Int))
  | t => (digitsNat? t).map Int.ofNat

/-- Parse the unsigned magnitude of a decimal float literal:
`digits [. digits] [exp]` or `. digits [exp]`, with at least one digit. -/
def parseDecMag? (neg : Bool) (u : List Char) : Option DecTok :=
  let ip := u.takeWhile Char.isDigit
  let r1 := u.dropWhile Char.isDigit
  match r1 with
  | '.' :: r2 =>
    let fp := r2.takeWhile Char.isDigit
    let r3 := r2.dropWhile Char.isDigit
    if ip = [] ∧ fp = [] then none
    else (parseExp? r3).map (fun e => ⟨neg, ip, fp, e⟩)
  | _ =>
    if ip = [] then none
    else (parseExp? r1).map (fun e => ⟨neg, ip, [], e⟩)

/-- Tokenize a Python `float(...)` argument (see the module comment for the
exact scope of the model). -/
def pyFloatTok? (s : List Char) : Option PyFloatTok :=
  let t := stripList s
  let (neg, u) :=
    match t with
    | '+' :: r => (false, r)
    | '-' :: r => (true, r)
    | _ => (false, t)
  let lu := u.map Char.toLower
  if lu = "inf".data ∨ lu = "infinity".data then
    some (if neg then .ninf else .pinf)
  else if lu = "nan".data then some .nan
  else (parseDecMag? neg u).map .dec

/-- The rational value of a finite decimal token. -/
def DecTok.toRat (d : DecTok) : ℚ :=
  (if d.neg then (-1 : ℚ) else 1) *
    ((digitsNat d.ip : ℚ) + (digitsNat d.fp : ℚ) / 10 ^ d.fp.length) * 10 ^ d.ex

/-- The value of a float token. -/
def PyFloatTok.val : PyFloatTok → PyFloatVal
  | .dec d => .finite d.toRat
  | .pinf => .pinf
  | .ninf => .ninf
  | .nan => .nan

/-- Python `float(s)`: `none` models a raised `ValueError`. -/
def pyFloatParse? (s : List Char) : Option PyFloatVal :=
  (pyFloatTok? s).map PyFloatTok.val

/-- The Python `<` comparison between a float value and a (finite) constant:
`nan < c` is always false, `-inf < c` always true, `+inf < c` always false. -/
def pfLt (x : PyFloatVal) (c : ℚ) : Bool :=
  match x with
  | .finite q => q < c
  | .pinf => false
  | .ninf => true
  | .nan => false

/-- Membership of a string in a list of strings (Python `x in s` for a set of
strings, modelled on lists with propositional equality). -/
def memS (x : String) (l : List String) : Bool :=
  l.any (fun y => y = x)

theorem memS_iff (x : String) (l : List String) : memS x l = true ↔ x ∈ l := by
  simp [memS, List.any_eq_true]

/-! ## The difficulty scorer (`calculate_smart_difficulty`, trips.py 49–160) -/

/-- trips.py 119: the place types treated as energy-demanding. -/
def energy_demanding_types : List String :=
  ["museum", "art_gallery", "church", "library", "aquarium", "zoo"]

/-- trips.py 120: the place types treated as relaxing. -/
def relaxing_types : List String :=
  ["park", "garden", "natural_feature", "scenic_lookout"]

/-- The cleanup applied to a walking-distance string before `float(...)`:
`s.replace(" km", "").replace(",", ".")` (trips.py 70, 541). -/
def cleanNumber (s : String) : List Char :=
  replaceList [','] ['.'] (replaceList " km".data [] s.data)

/-- trips.py 95–103: parse a duration string of the form `"2h 30m"` or
`"45m"` into minutes; `none` models an exception caught by the surrounding
`try`. -/
def duration_minutes? (duration : List Char) : Option Int :=
  if duration.contains 'h' then
    match splitOnChar 'h' (replaceList ['m'] [] duration) with
    | [] => none
    | p0 :: rest =>
      match pyInt? p0 with
      | none => none
      | some hours =>
        match rest with
        | [] => some (hours * 60)
        | p1 :: _ =>
          if stripList p1 = [] then some (hours * 60)
          else
            match pyInt? p1 with
            | none => none
            | some m => some (hours * 60 + m)
  else pyInt? (stripList (replaceList ['m'] [] duration))

/-- trips.py 71–80: the walking-distance factor (weight 40). -/
def walkingScore (w : PyFloatVal) : Int :=
  if pfLt w 2 then 5
  else if pfLt w 3 then 10
  else if pfLt w 5 then 20
  else if pfLt w 7 then 30
  else 40

/-- trips.py 84–91: the stop-count factor (weight 25). -/
def placesScore (num_places : Int) : Int :=
  if num_places ≤ 3 then 5
  else if num_places ≤ 5 then 12
  else if num_places ≤ 7 then 20
  else 25

/-- trips.py 95–114: the duration factor (weight 20); an unparsable duration
scores 10. -/
def durationScore (duration : String) : Int :=
  match duration_minutes? duration.data with
  | some m =>
    if m < 120 then 3
    else if m < 180 then 8
    else if m < 240 then 15
    else 20
  | none => 10

/-- trips.py 119–143: the type-mix factor (weight 15).  Each place is
represented by its list of type tags. -/
def typeMixScore (places : List (List String)) (num_places : Int) : Int :=
  let energy_demanding_count : Nat :=
    places.countP (fun ts => ts.any (fun t => memS t energy_demanding_types))
  let relaxing_count : Nat :=
    places.countP (fun ts => ts.any (fun t => memS t relaxing_types))
  let denom : ℚ := (max num_places 1 : Int)
  let energy_ratio : ℚ := (energy_demanding_count : ℚ) / denom
  let relaxing_ratio : ℚ := (relaxing_count : ℚ) / denom
  if energy_ratio > 1/2 then 15
  else if energy_ratio > 3/10 then 10
  else if relaxing_ratio > 1/2 then 3
  else 7

/-- trips.py 49–153: the total difficulty score.  The walking-distance parse
(line 70) is a bare `float(...)` outside any `try`, so a parse failure there
is an uncaught exception, modelled by `none`.  `total_distance` is accepted
and unused, as in the source. -/
def calculate_smart_difficulty_score (walking_distance total_distance duration : String)
    (num_places : Int) (places : List (List String)) : Option Int :=
  match pyFloatParse? (cleanNumber walking_distance) with
  | none => none
  | some w =>
    some (walkingScore w + placesScore num_places + durationScore duration +
      typeMixScore places num_places)

/-- trips.py 155–160: bucket the score: ≤35 → easy, ≤65 → moderate,
else hard. -/
def calculate_smart_difficulty (walking_distance total_distance duration : String)
    (num_places : Int) (places : List (List String)) : Option String :=
  (calculate_smart_difficulty_score walking_distance total_distance duration
      num_places places).map
    (fun score =>
      if score ≤ 35 then "easy"
      else if score ≤ 65 then "moderate"
      else "hard")

/-! ## MapsService (maps_service.py): failed-mode cache and route building -/

/-- maps_service.py 61–74: the mutable state of `MapsService`.  In the source
this is an instance field (`self._failed_modes`) of the single module-level
`maps_service = MapsService()` object (line 956), i.e. state of a long-lived
service shared by every request. -/
structure MapsServiceState where
  failed_modes : List String
deriving DecidableEq, Repr

/-- maps_service.py 70: `self._failed_modes = set()` in `__init__`. -/
def MapsService.init : MapsServiceState := ⟨[]⟩

/-- maps_service.py 76–80: `reset_failed_modes_cache` clears the shared
cache; it is called by `generate_routes` (trips.py 213) at the start of each
generation request. -/
def reset_failed_modes_cache (s : MapsServiceState) : MapsServiceState :=
  ⟨[]⟩

/-- maps_service.py 868–891: estimated walking fraction of the total route
distance, by effective transport mode. -/
def calculate_walking_distance (total_distance_km : ℚ) (mode : String) : ℚ :=
  if mode = "walking" then total_distance_km
  else if mode = "bicycling" then total_distance_km * (20 / 100)
  else if mode = "transit" then total_distance_km * (40 / 100)
  else total_distance_km * (35 / 100)

/-- maps_service.py 793–842: per-stop visit time heuristic, in seconds.  A
place is represented by its list of type tags; the first matching tag set
wins.  The `mode` argument is accepted and unused, as in the source. -/
def _estimate_visit_time (places : List (List String)) (mode : String) : Int :=
  let visit_minutes : List String → Int := fun place_types =>
    if place_types.any (fun t => memS t ["museum", "art_gallery", "aquarium", "zoo"]) then 75
    else if place_types.any (fun t => memS t ["restaurant", "cafe", "bar", "meal_takeaway"]) then 50
    else if place_types.any (fun t => memS t ["park", "natural_feature", "garden", "hiking_area"]) then 35
    else if place_types.any (fun t => memS t ["shopping_mall", "store", "clothing_store"]) then 45
    else if place_types.any (fun t => memS t ["church", "tourist_attraction", "landmark", "monument"]) then 20
    else if place_types.any (fun t => memS t ["amusement_park", "movie_theater", "bowling_alley"]) then 90
    else 30
  (places.foldl (fun acc p => acc + visit_minutes p) 0) * 60

/-- maps_service.py 844–866: per-stop overhead in seconds, by mode. -/
def _estimate_overhead (num_places : Nat) (mode : String) : Int :=
  if mode = "walking" then (num_places : Int) * 60
  else if mode = "transit" then (num_places : Int) * 10 * 60
  else if mode = "bicycling" then (num_places : Int) * 3 * 60
  else (num_places : Int) * 7 * 60

/-- The outcome of one call to the Google Directions collaborator
(`self.client.directions`), abstracted as an oracle result: a successful
route (with its total distance in meters and travel time in seconds), a
`googlemaps.exceptions.Timeout`, or any other API error. -/
inductive DirectionsOutcome where
  | ok (total_distance_meters : Int) (total_duration_seconds : Int)
  | timeout
  | apiError
deriving DecidableEq, Repr

/-- The numeric estimates computed by `build_route_with_optimization`
(maps_service.py 728–754) for a successful build.  The `"X.X km"` / `"Xh Ym"`
string formatting of these values is presentation-only and not modelled. -/
structure RouteEstimates where
  effective_mode : String
  total_distance_km : ℚ
  walking_distance_km : ℚ
  travel_time_seconds : Int
  visit_time_seconds : Int
  overhead_seconds : Int
  total_duration_seconds : Int
deriving DecidableEq, Repr

/-- maps_service.py 728–747: the estimates derived from a successful
directions response in the given effective mode. -/
def mkEstimates (effective_mode : String) (total_distance_meters total_duration_seconds : Int)
    (places : List (List String)) : RouteEstimates :=
  let distance_km : ℚ := (total_distance_meters : ℚ) / 1000
  let walking_distance_km := calculate_walking_distance distance_km effective_mode
  let travel_time_seconds := total_duration_seconds
  let visit_time_seconds := _estimate_visit_time places effective_mode
  let overhead_seconds := _estimate_overhead places.length effective_mode
  ⟨effective_mode, distance_km, walking_distance_km, travel_time_seconds,
    visit_time_seconds, overhead_seconds,
    travel_time_seconds + visit_time_seconds + overhead_seconds⟩

/-- The observable result of one `build_route_with_optimization` call:
`result = none` models an exception leaving the function (ValueError on an
empty place list, a timeout in driving mode, or an API error), `failed_modes`
is the cache state after the call, and `calls` records the modes in which the
directions collaborator was invoked, in order. -/
structure BuildRouteResult where
  result : Option RouteEstimates
  failed_modes : List String
  calls : List String
deriving DecidableEq, Repr

/-- maps_service.py 632–791: `build_route_with_optimization`.  The requested
mode is substituted by `"driving"` up front when it is cached as failed
(666–670); a `Timeout` in a non-driving effective mode records the mode in
the cache and retries exactly once in `"driving"` (684–700); a `Timeout`
while already in `"driving"` is re-raised (701–702).  Each place is
represented by its list of type tags (only the types influence the modelled
estimates). -/
def build_route_with_optimization (mode : String) (failed : List String)
    (oracle : String → DirectionsOutcome) (places : List (List String)) :
    BuildRouteResult :=
  if places.isEmpty then ⟨none, failed, []⟩
  else
    let effective_mode := if memS mode failed ∧ mode ≠ "driving" then "driving" else mode
    match oracle effective_mode with
    | .ok m d => ⟨some (mkEstimates effective_mode m d places), failed, [effective_mode]⟩
    | .apiError => ⟨none, failed, [effective_mode]⟩
    | .timeout =>
      if effective_mode ≠ "driving" then
        let failed2 := effective_mode :: failed
        match oracle "driving" with
        | .ok m d => ⟨some (mkEstimates "driving" m d places), failed2, [effective_mode, "driving"]⟩
        | _ => ⟨none, failed2, [effective_mode, "driving"]⟩
      else ⟨none, failed, [effective_mode]⟩

/-- One variant build acting on the shared `MapsServiceState`, as every call
through the module-level `maps_service` singleton does. -/
def buildVariantShared (mode : String) (oracle : String → DirectionsOutcome)
    (places : List (List String)) (s : MapsServiceState) :
    BuildRouteResult × MapsServiceState :=
  let r := build_route_with_optimization mode s.failed_modes oracle places
  (r, ⟨r.failed_modes⟩)

/-! ## Candidate pool and selection strategies (trips.py 243–394) -/

/-- A candidate place as consumed by the selection strategies: the
`PlaceSuggestion` fields that `generate_routes` reads.  `distance` is the
annotated distance from the start point (`none` before annotation; the
sort key treats `none` as `float('inf')`, trips.py 293). -/
structure Candidate where
  id : String
  rating : Option ℚ
  distance : Option ℚ
deriving DecidableEq, Repr

/-- Python `p.rating or 0` (trips.py 265, 296, 365). -/
def ratingOr0 (p : Candidate) : ℚ :=
  p.rating.getD 0

/-- Python `p.distance or float('inf')` as a sort-key comparison:
`distKeyLe p q` states that `p`'s key is ≤ `q`'s. -/
def distKeyLe (p q : Candidate) : Bool :=
  match p.distance, q.distance with
  | _, none => true
  | none, some _ => false
  | some a, some b => a ≤ b

/-- Membership of a candidate in a list of candidates (Python `p in l`,
which compares pydantic models by field values). -/
def memC (p : Candidate) (l : List Candidate) : Bool :=
  l.any (fun q => q = p)

theorem memC_iff (p : Candidate) (l : List Candidate) : memC p l = true ↔ p ∈ l := by
  simp [memC, List.any_eq_true]

/-- Insert one element into an already-processed list, keeping it after every
element that `keep`s its place before the new one; folding this over a list
is a stable sort, the model of Python's `sorted`. -/
def insertPref (keep : α → α → Bool) (p : α) : List α → List α
  | [] => [p]
  | q :: rest => if keep q p then q :: insertPref keep p rest else p :: q :: rest

/-- Stable sort (Python `sorted(l, key=...)`): `keep q p = true` means an
earlier element `q` may stay in front of a later element `p`; for an
ascending sort by key `k` this is `k q ≤ k p`. -/
def stableSortBy (keep : α → α → Bool) (l : List α) : List α :=
  l.foldl (fun acc p => insertPref keep p acc) []

/-- trips.py 293: `sorted(quality_places, key=lambda p: p.distance or float('inf'))`. -/
def sortByDistanceAsc (l : List Candidate) : List Candidate :=
  stableSortBy distKeyLe l

/-- trips.py 296 and 365: `sorted(..., key=lambda p: p.rating or 0, reverse=True)`. -/
def sortByRatingDesc (l : List Candidate) : List Candidate :=
  stableSortBy (fun q p => ratingOr0 p ≤ ratingOr0 q) l

/-- trips.py 343–347 / 352–357 / 376–381: the backfill loop
`for p in pool: if p not in selected: selected.append(p); if len(selected) >= n: break`. -/
def fillLoop (pool : List Candidate) (sel : List Candidate) (n : Nat) : List Candidate :=
  match pool with
  | [] => sel
  | p :: rest =>
    let sel2 := if memC p sel then sel else sel ++ [p]
    if n ≤ sel2.length then sel2 else fillLoop rest sel2 n

/-- trips.py 338–357: the `closest` and `best_rated` strategies, which share
their code and differ only in the pre-sorted list they draw from: take the
first `n` candidates not yet used, then backfill (including used ones) from
the same ordering. -/
def selectPreferUnused (ordered : List Candidate) (used : List String) (n : Nat) :
    List Candidate :=
  let available := ordered.filter (fun p => !(memS p.id used))
  let sel := available.take n
  if sel.length < n then fillLoop ordered sel n else sel

/-- trips.py 367–374: the middle-range backfill of `furthest_good`:
`for p in middle: if p not in selected and p.id not in used: selected.append(p); if len >= n: break`. -/
def middleLoop (pool : List Candidate) (used : List String) (sel : List Candidate)
    (n : Nat) : List Candidate :=
  match pool with
  | [] => sel
  | p :: rest =>
    let sel2 := if !(memC p sel) && !(memS p.id used) then sel ++ [p] else sel
    if n ≤ sel2.length then sel2 else middleLoop rest used sel2 n

/-- trips.py 359–381: the `furthest_good` strategy: skip the
`min(poolLen // 2, n)` closest candidates, keep the unused remainder sorted
by rating descending, take `n`; if short, backfill from the middle distance
range `[skip // 2, skip)` preferring unused, then from anywhere. -/
def selectFurthestGood (byDist : List Candidate) (poolLen : Nat) (used : List String)
    (n : Nat) : List Candidate :=
  let skip_count := min (poolLen / 2) n
  let further_places := (byDist.drop skip_count).filter (fun p => !(memS p.id used))
  let further_by_rating := sortByRatingDesc further_places
  let sel := further_by_rating.take n
  let sel2 :=
    if sel.length < n then
      middleLoop ((byDist.drop (skip_count / 2)).take (skip_count - skip_count / 2)) used sel n
    else sel
  if sel2.length < n then fillLoop byDist sel2 n else sel2

/-- trips.py 385–387: record the chosen candidates' ids in `used_place_ids`
(a Python set; modelled as a list with membership semantics). -/
def addUsed (used : List String) (sel : List Candidate) : List String :=
  used ++ sel.map Candidate.id

/-- The three selections of one generation run together with the `UsedSet`
snapshots consulted between the strategies. -/
structure SelectionOutcome where
  selClosest : List Candidate
  selBestRated : List Candidate
  selFurthest : List Candidate
  usedAfterFirst : List String
  usedAfterSecond : List String
deriving Repr

/-- trips.py 292–387: the sequential run of the three selection strategies
over one candidate pool, threading `used_place_ids` (created empty at
line 322) from strategy to strategy. -/
def runSelectionStrategies (pool : List Candidate) (n : Nat) : SelectionOutcome :=
  let places_by_distance := sortByDistanceAsc pool
  let places_by_rating := sortByRatingDesc pool
  let used0 : List String := []
  let s1 := selectPreferUnused places_by_distance used0 n
  let used1 := addUsed used0 s1
  let s2 := selectPreferUnused places_by_rating used1 n
  let used2 := addUsed used1 s2
  let s3 := selectFurthestGood places_by_distance pool.length used2 n
  ⟨s1, s2, s3, used1, used2⟩

/-! ## Candidate pool builder (trips.py 243–269) -/

/-- trips.py 245: `max_places_to_search = min(request.num_places * 3, 60)`. -/
def max_places_to_search (num_places : Nat) : Nat :=
  min (num_places * 3) 60

/-- trips.py 265: the quality filter `(p.rating or 0) >= 3.5`. -/
def qualityFilter (place_suggestions : List Candidate) : List Candidate :=
  place_suggestions.filter (fun p => (7 : ℚ) / 2 ≤ ratingOr0 p)

/-- trips.py 256–267: fail with the 404 insufficient-candidates error when
the unfiltered pool has fewer than 3 entries; otherwise filter by rating and
fall back to the unfiltered pool when fewer than 3 candidates pass. -/
def buildCandidatePool (place_suggestions : List Candidate) :
    Except String (List Candidate) :=
  if place_suggestions.length < 3 then .error "Not enough places found"
  else
    let quality_places := qualityFilter place_suggestions
    .ok (if quality_places.length < 3 then place_suggestions else quality_places)

/-! ## Assembler and per-variant error handling (trips.py 324–561) -/

/-- The fields of a built `RouteOption` that the assembler reads or writes;
all remaining fields are carried through unchanged and are not modelled. -/
structure RouteVar where
  id : String
  name : String
  walking_distance : String
deriving DecidableEq, Repr

/-- trips.py 538–543: `parse_distance`, the guarded float parse of a
walking-distance string; any parse failure yields 0.0.  (The non-finite
float cases, impossible for the `"X.X km"` strings the pipeline produces,
are mapped to the failure value as well.) -/
def parse_distance (d : String) : ℚ :=
  match pyFloatParse? (cleanNumber d) with
  | some (.finite q) => q
  | _ => 0

/-- The sort preference of trips.py 545: ascending by parsed walking
distance. -/
def walkKeep (q p : RouteVar) : Bool :=
  parse_distance q.walking_distance ≤ parse_distance p.walking_distance

/-- trips.py 548–549: the canonical labels, by ascending walking distance. -/
def difficulty_names : List String := ["Facile", "Moyen", "Difficile"]

/-- trips.py 549: the canonical ids, by ascending walking distance. -/
def difficulty_ids : List String := ["route_facile", "route_moyen", "route_difficile"]

/-- trips.py 551–554: the relabelling applied to the route at sorted
position `i` (only the first three positions are relabelled). -/
def labelAt (i : Nat) (r : RouteVar) : RouteVar :=
  if i < 3 then
    { r with name := difficulty_names.getD i r.name, id := difficulty_ids.getD i r.id }
  else r

/-- The enumeration loop of trips.py 551–554 starting at index `i`. -/
def assignLabelsFrom (i : Nat) : List RouteVar → List RouteVar
  | [] => []
  | r :: rest => labelAt i r :: assignLabelsFrom (i + 1) rest

/-- trips.py 545–554: sort the built variants ascending by parsed walking
distance, then assign the canonical ids and names positionally. -/
def assembleRoutes (routes : List RouteVar) : List RouteVar :=
  assignLabelsFrom 0 (stableSortBy walkKeep routes)

/-- The outcome of one variant build inside the `for config in route_configs`
loop: `.ok` carries the built route, `.error` models any exception caught by
the per-variant `except` (trips.py 527–529). -/
def variantToList : Except String RouteVar → List RouteVar
  | .ok r => [r]
  | .error _ => []

/-- trips.py 324–529: the per-variant loop; a failed variant is logged and
skipped (`continue`), the successful ones are appended in configuration
order. -/
def collectVariants (builds : List (Except String RouteVar)) : List RouteVar :=
  builds.foldr (fun b acc => variantToList b ++ acc) []

/-- trips.py 531–561: fail with the 500 all-variants-failed error exactly
when no variant succeeded; otherwise assemble and return the successful
ones. -/
def generateRoutesOutcome (builds : List (Except String RouteVar)) :
    Except String (List RouteVar) :=
  let routes := collectVariants builds
  if routes.length = 0 then .error "Failed to generate any routes"
  else .ok (assembleRoutes routes)

/-! ## Evaluation helpers -/

/-- Unfold the score once the walking-distance string tokenizes to a finite
decimal. -/
theorem score_eval (w td d : String) (n : Int) (ps : List (List String)) (t : DecTok)
    (h : pyFloatTok? (cleanNumber w) = some (.dec t)) :
    calculate_smart_difficulty_score w td d n ps =
      some (walkingScore (.finite t.toRat) + placesScore n + durationScore d +
        typeMixScore ps n) := by
  simp [calculate_smart_difficulty_score, pyFloatParse?, h, PyFloatTok.val]

/-- Unfold the bucket through a computed score. -/
theorem bucket_eval (w td d : String) (n : Int) (ps : List (List String)) (v : Int)
    (h : calculate_smart_difficulty_score w td d n ps = some v) :
    calculate_smart_difficulty w td d n ps =
      some (if v ≤ 35 then "easy" else if v ≤ 65 then "moderate" else "hard") := by
  simp [calculate_smart_difficulty, h]

theorem fixture1_score :
    calculate_smart_difficulty_score "1.5 km" "3.0 km" "90m" 3 [[], [], []] = some 20 := by
  have h := score_eval "1.5 km" "3.0 km" "90m" 3 [[], [], []] ⟨false, ['1'], ['5'], 0⟩
    (by decide)
  rw [h]
  have hv : DecTok.toRat ⟨false, ['1'], ['5'], 0⟩ = 3 / 2 := by
    have h1 : digitsNat ['1'] = 1 := by decide
    have h5 : digitsNat ['5'] = 5 := by decide
    rw [DecTok.toRat, h1, h5]; norm_num
  have hw : walkingScore (.finite (DecTok.toRat ⟨false, ['1'], ['5'], 0⟩)) = 5 := by
    rw [hv, walkingScore]; norm_num [pfLt]
  have hd : durationScore "90m" = 3 := by decide
  have hp : placesScore 3 = 5 := by decide
  have htm : typeMixScore [[], [], []] 3 = 7 := by
    rw [typeMixScore]; norm_num
  rw [hw, hd, hp, htm]
  decide

theorem fixture2_score :
    calculate_smart_difficulty_score "6.0 km" "12.0 km" "3h 20m" 6
      (List.replicate 6 ["museum"]) = some 80 := by
  have h := score_eval "6.0 km" "12.0 km" "3h 20m" 6 (List.replicate 6 ["museum"])
    ⟨false, ['6'], ['0'], 0⟩ (by decide)
  rw [h]
  have hv : DecTok.toRat ⟨false, ['6'], ['0'], 0⟩ = 6 := by
    have h6 : digitsNat ['6'] = 6 := by decide
    have h0 : digitsNat ['0'] = 0 := by decide
    rw [DecTok.toRat, h6, h0]; norm_num
  have hw : walkingScore (.finite (DecTok.toRat ⟨false, ['6'], ['0'], 0⟩)) = 30 := by
    rw [hv, walkingScore]; norm_num [pfLt]
  have hd : durationScore "3h 20m" = 15 := by decide
  have hp : placesScore 6 = 20 := by decide
  have htm : typeMixScore (List.replicate 6 ["museum"]) 6 = 15 := by
    have e1 : (List.replicate 6 ["museum"]).countP
        (fun ts => ts.any (fun t => memS t energy_demanding_types)) = 6 := by decide
    simp only [typeMixScore, e1]
    norm_num
  rw [hw, hd, hp, htm]
  decide

theorem fixture3_score :
    calculate_smart_difficulty_score "4.0 km" "10.0 km" "2h 30m" 5
      (List.replicate 5 ["park"]) = some 43 := by
  have h := score_eval "4.0 km" "10.0 km" "2h 30m" 5 (List.replicate 5 ["park"])
    ⟨false, ['4'], ['0'], 0⟩ (by decide)
  rw [h]
  have hv : DecTok.toRat ⟨false, ['4'], ['0'], 0⟩ = 4 := by
    have h4 : digitsNat ['4'] = 4 := by decide
    have h0 : digitsNat ['0'] = 0 := by decide
    rw [DecTok.toRat, h4, h0]; norm_num
  have hw : walkingScore (.finite (DecTok.toRat ⟨false, ['4'], ['0'], 0⟩)) = 20 := by
    rw [hv, walkingScore]; norm_num [pfLt]
  have hd : durationScore "2h 30m" = 8 := by decide
  have hp : placesScore 5 = 12 := by decide
  have htm : typeMixScore (List.replicate 5 ["park"]) 5 = 3 := by
    have e1 : (List.replicate 5 ["park"]).countP
        (fun ts => ts.any (fun t => memS t energy_demanding_types)) = 0 := by decide
    have e2 : (List.replicate 5 ["park"]).countP
        (fun ts => ts.any (fun t => memS t relaxing_types)) = 5 := by decide
    simp only [typeMixScore, e1, e2]
    norm_num
  rw [hw, hd, hp, htm]
  decide

/-- **C3.** The difficulty scorer is the stated deterministic four-factor sum
with the stated bucketing; in particular the three specification fixtures
evaluate to score 20 → easy, score 80 → hard and score 43 → moderate. -/
theorem claim_C3 :
    calculate_smart_difficulty_score "1.5 km" "3.0 km" "90m" 3 [[], [], []] = some 20 ∧
    calculate_smart_difficulty "1.5 km" "3.0 km" "90m" 3 [[], [], []] = some "easy" ∧
    calculate_smart_difficulty_score "6.0 km" "12.0 km" "3h 20m" 6
      (List.replicate 6 ["museum"]) = some 80 ∧
    calculate_smart_difficulty "6.0 km" "12.0 km" "3h 20m" 6
      (List.replicate 6 ["museum"]) = some "hard" ∧
    calculate_smart_difficulty_score "4.0 km" "10.0 km" "2h 30m" 5
      (List.replicate 5 ["park"]) = some 43 ∧
    calculate_smart_difficulty "4.0 km" "10.0 km" "2h 30m" 5
      (List.replicate 5 ["park"]) = some "moderate" := by
  refine ⟨fixture1_score, ?_, fixture2_score, ?_, fixture3_score, ?_⟩
  · rw [bucket_eval _ _ _ _ _ _ fixture1_score]; norm_num
  · rw [bucket_eval _ _ _ _ _ _ fixture2_score]; norm_num
  · rw [bucket_eval _ _ _ _ _ _ fixture3_score]; norm_num

/-- **C10.** The scorer is not total in its walking-distance argument: when
the cleaned walking-distance string is not accepted by `float(...)` the
function raises (returns no bucket), while a parsable walking distance always
yields a bucket, whatever the duration string — only the duration factor is
guarded. -/
theorem claim_C10 (walking_distance total_distance duration : String) (num_places : Int)
    (places : List (List String)) :
    (pyFloatParse? (cleanNumber walking_distance) = none →
      calculate_smart_difficulty walking_distance total_distance duration num_places
        places = none) ∧
    (∀ w, pyFloatParse? (cleanNumber walking_distance) = some w →
      (calculate_smart_difficulty walking_distance total_distance duration num_places
        places).isSome = true) := by
  constructor
  · intro h
    simp [calculate_smart_difficulty, calculate_smart_difficulty_score, h]
  · intro w h
    simp [calculate_smart_difficulty, calculate_smart_difficulty_score, h]

/-- Witness for C10: the walking-distance string `"N/A km"` cleans to `"N/A"`,
which `float(...)` rejects, and the scorer raises on it; the duration string
`"garbage"` alone does not make the scorer raise. -/
theorem claim_C10_witness :
    calculate_smart_difficulty "N/A km" "3.0 km" "90m" 3 [[], [], []] = none ∧
    (calculate_smart_difficulty "1.5 km" "3.0 km" "garbage" 3 [[], [], []]).isSome = true := by
  constructor
  · exact (claim_C10 "N/A km" "3.0 km" "90m" 3 [[], [], []]).1 (by decide)
  · refine (claim_C10 "1.5 km" "3.0 km" "garbage" 3 [[], [], []]).2
      (.finite (DecTok.toRat ⟨false, ['1'], ['5'], 0⟩)) ?_
    have h : pyFloatTok? (cleanNumber "1.5 km") = some (.dec ⟨false, ['1'], ['5'], 0⟩) := by
      decide
    simp [pyFloatParse?, h, PyFloatTok.val]

/-! ## Sorting infrastructure lemmas -/

theorem insertPref_perm (keep : α → α → Bool) (p : α) (l : List α) :
    List.Perm (insertPref keep p l) (p :: l) := by
  induction l with
  | nil => exact List.Perm.refl _
  | cons q rest ih =>
    rw [insertPref]
    by_cases h : keep q p = true
    · rw [if_pos h]
      exact (ih.cons q).trans (List.Perm.swap p q rest)
    · rw [if_neg h]

theorem stableSortBy_perm (keep : α → α → Bool) (l : List α) :
    List.Perm (stableSortBy keep l) l := by
  suffices h : ∀ acc : List α,
      List.Perm (l.foldl (fun acc p => insertPref keep p acc) acc) (acc ++ l) by
    simpa using h []
  induction l with
  | nil => intro acc; simp
  | cons p rest ih =>
    intro acc
    rw [List.foldl_cons]
    refine (ih (insertPref keep p acc)).trans ?_
    refine (List.Perm.append_right rest (insertPref_perm keep p acc)).trans ?_
    simpa using (List.perm_middle.symm : List.Perm (p :: (acc ++ rest)) (acc ++ p :: rest))

theorem stableSortBy_length (keep : α → α → Bool) (l : List α) :
    (stableSortBy keep l).length = l.length :=
  (stableSortBy_perm keep l).length_eq

/-- An insertion step preserves sortedness when `keep` is total and
transitive. -/
theorem insertPref_pairwise (keep : α → α → Bool)
    (htot : ∀ a b, keep a b = true ∨ keep b a = true)
    (htrans : ∀ a b c, keep a b = true → keep b c = true → keep a c = true)
    (p : α) (l : List α) (hl : l.Pairwise (fun a b => keep a b = true)) :
    (insertPref keep p l).Pairwise (fun a b => keep a b = true) := by
  induction l with
  | nil => simp [insertPref]
  | cons q rest ih =>
    rw [insertPref]
    rcases List.pairwise_cons.mp hl with ⟨hq, hrest⟩
    by_cases h : keep q p = true
    · rw [if_pos h]
      refine List.pairwise_cons.mpr ⟨?_, ih hrest⟩
      intro z hz
      rcases List.mem_cons.mp ((insertPref_perm keep p rest).mem_iff.mp hz) with hz2 | hz2
      · subst hz2; exact h
      · exact hq z hz2
    · rw [if_neg h]
      have hpq : keep p q = true := (htot p q).resolve_right h
      refine List.pairwise_cons.mpr ⟨?_, hl⟩
      intro z hz
      rcases List.mem_cons.mp hz with hz2 | hz2
      · subst hz2; exact hpq
      · exact htrans p q z hpq (hq z hz2)

theorem stableSortBy_pairwise (keep : α → α → Bool)
    (htot : ∀ a b, keep a b = true ∨ keep b a = true)
    (htrans : ∀ a b c, keep a b = true → keep b c = true → keep a c = true)
    (l : List α) :
    (stableSortBy keep l).Pairwise (fun a b => keep a b = true) := by
  suffices h : ∀ acc : List α, acc.Pairwise (fun a b => keep a b = true) →
      (l.foldl (fun acc p => insertPref keep p acc) acc).Pairwise
        (fun a b => keep a b = true) by
    exact h [] (by simp)
  induction l with
  | nil => intro acc hacc; simpa using hacc
  | cons p rest ih =>
    intro acc hacc
    rw [List.foldl_cons]
    exact ih _ (insertPref_pairwise keep htot htrans p acc hacc)

/-! ## Label-assignment lemmas -/

theorem assignLabelsFrom_length (i : Nat) (l : List RouteVar) :
    (assignLabelsFrom i l).length = l.length := by
  induction l generalizing i with
  | nil => rfl
  | cons r rest ih => simp [assignLabelsFrom, ih]

theorem assignLabelsFrom_get? (i j : Nat) (l : List RouteVar) :
    (assignLabelsFrom i l)[j]? = (l[j]?).map (labelAt (i + j)) := by
  induction l generalizing i j with
  | nil => simp [assignLabelsFrom]
  | cons r rest ih =>
    cases j with
    | zero => simp [assignLabelsFrom]
    | succ j =>
      rw [assignLabelsFrom]
      have h := ih (i + 1) j
      rw [show i + 1 + j = i + (j + 1) by omega] at h
      simpa using h

theorem assembleRoutes_length (routes : List RouteVar) :
    (assembleRoutes routes).length = routes.length := by
  rw [assembleRoutes, assignLabelsFrom_length, stableSortBy_length]

/-! ## Claim C7: the candidate pool builder -/

/-- **C7.** The pool builder asks the place-search collaborator for at most
`min(3·n, 60)` candidates, fails with the insufficient-candidates error
exactly when the unfiltered pool has fewer than 3 entries, and otherwise
keeps the candidates rated ≥ 3.5, falling back to the whole unfiltered pool
when fewer than 3 pass the filter. -/
theorem claim_C7 (num_places : Nat) (place_suggestions : List Candidate) :
    max_places_to_search num_places = min (3 * num_places) 60 ∧
    (buildCandidatePool place_suggestions = .error "Not enough places found" ↔
      place_suggestions.length < 3) ∧
    (3 ≤ place_suggestions.length →
      3 ≤ (qualityFilter place_suggestions).length →
      buildCandidatePool place_suggestions = .ok (qualityFilter place_suggestions)) ∧
    (3 ≤ place_suggestions.length →
      (qualityFilter place_suggestions).length < 3 →
      buildCandidatePool place_suggestions = .ok place_suggestions) := by
  refine ⟨by rw [max_places_to_search, Nat.mul_comm], ?_, ?_, ?_⟩
  · constructor
    · intro h
      by_contra hlen
      rw [buildCandidatePool, if_neg hlen] at h
      exact Except.noConfusion h
    · intro h
      rw [buildCandidatePool, if_pos h]
  · intro h3 hq
    rw [buildCandidatePool, if_neg (by omega)]
    show Except.ok (if (qualityFilter place_suggestions).length < 3 then place_suggestions
      else qualityFilter place_suggestions) = _
    rw [if_neg (by omega)]
  · intro h3 hq
    rw [buildCandidatePool, if_neg (by omega)]
    show Except.ok (if (qualityFilter place_suggestions).length < 3 then place_suggestions
      else qualityFilter place_suggestions) = _
    rw [if_pos hq]

/-- Witness for C7: a 4-candidate pool with one low-rated entry keeps the
three quality candidates; requesting 5 stops asks for 15 candidates. -/
theorem claim_C7_witness :
    max_places_to_search 5 = min (3 * 5) 60 ∧
    buildCandidatePool
      [⟨"a", some 4, none⟩, ⟨"b", some (1/2), none⟩, ⟨"c", some 5, none⟩,
        ⟨"d", some 4, none⟩] =
      .ok (qualityFilter
        [⟨"a", some 4, none⟩, ⟨"b", some (1/2), none⟩, ⟨"c", some 5, none⟩,
          ⟨"d", some 4, none⟩]) := by
  constructor
  · exact (claim_C7 5 []).1
  · refine (claim_C7 5 _).2.2.1 (by norm_num) ?_
    have h : qualityFilter
        [⟨"a", some 4, none⟩, ⟨"b", some (1/2), none⟩, ⟨"c", some 5, none⟩,
          ⟨"d", some 4, none⟩] =
        [⟨"a", some 4, none⟩, ⟨"c", some 5, none⟩, ⟨"d", some 4, none⟩] := by
      rw [qualityFilter]
      norm_num [List.filter, ratingOr0]
    rw [h]
    norm_num

/-! ## Claim C8: per-variant degradation -/

/-- Whether a variant build failed. -/
def isErrVariant : Except String RouteVar → Prop
  | .ok _ => False
  | .error _ => True

/-- **C8.** An exception in one of the three variant builds only omits that
variant: the collected routes are exactly the successful builds in
configuration order, the run errors exactly when all three builds failed,
and a successful run returns between 1 and 3 route options. -/
theorem claim_C8 (b1 b2 b3 : Except String RouteVar) :
    collectVariants [b1, b2, b3] = variantToList b1 ++ variantToList b2 ++ variantToList b3 ∧
    (generateRoutesOutcome [b1, b2, b3] = .error "Failed to generate any routes" ↔
      isErrVariant b1 ∧ isErrVariant b2 ∧ isErrVariant b3) ∧
    (∀ rs, generateRoutesOutcome [b1, b2, b3] = .ok rs →
      1 ≤ rs.length ∧ rs.length ≤ 3) := by
  refine ⟨by simp [collectVariants], ?_, ?_⟩
  · cases b1 <;> cases b2 <;> cases b3 <;>
      simp [generateRoutesOutcome, collectVariants, variantToList, isErrVariant]
  · intro rs hrs
    rw [generateRoutesOutcome] at hrs
    by_cases hz : (collectVariants [b1, b2, b3]).length = 0
    · rw [if_pos hz] at hrs; exact Except.noConfusion hrs
    · rw [if_neg hz] at hrs
      have := Except.ok.inj hrs
      subst this
      rw [assembleRoutes_length]
      have hlen : (collectVariants [b1, b2, b3]).length ≤ 3 := by
        cases b1 <;> cases b2 <;> cases b3 <;>
          simp [collectVariants, variantToList]
      omega

/-- Witness for C8: with the middle variant failing, the caller receives the
two successful ones. -/
theorem claim_C8_witness :
    (∀ rs, generateRoutesOutcome
        [.ok ⟨"route_variant_1", "", "2.0 km"⟩, .error "boom",
          .ok ⟨"route_variant_3", "", "4.0 km"⟩] = .ok rs →
      1 ≤ rs.length ∧ rs.length ≤ 3) ∧
    collectVariants
        [.ok ⟨"route_variant_1", "", "2.0 km"⟩, .error "boom",
          .ok ⟨"route_variant_3", "", "4.0 km"⟩] =
      [⟨"route_variant_1", "", "2.0 km"⟩, ⟨"route_variant_3", "", "4.0 km"⟩] :=
  ⟨(claim_C8 _ _ _).2.2,
    (claim_C8 (.ok ⟨"route_variant_1", "", "2.0 km"⟩) (.error "boom")
      (.ok ⟨"route_variant_3", "", "4.0 km"⟩)).1⟩

/-! ## Claims C2 and C9: the transport-mode fallback protocol -/

/-- **C2.** Within one session: (a) a requested non-driving mode already in
the session's failed modes is substituted by driving without any call in the
requested mode; (b) a provider timeout in a non-driving mode records that
mode as failed and retries exactly once in driving; (c) a timeout while
already in driving propagates as a failure of the variant (and records
nothing). -/
theorem claim_C2 (mode : String) (failed : List String)
    (oracle : String → DirectionsOutcome) (places : List (List String))
    (hp : places ≠ []) :
    (mode ∈ failed → mode ≠ "driving" →
      (build_route_with_optimization mode failed oracle places).calls = ["driving"] ∧
      mode ∉ (build_route_with_optimization mode failed oracle places).calls) ∧
    (mode ∉ failed → mode ≠ "driving" → oracle mode = .timeout →
      (build_route_with_optimization mode failed oracle places).failed_modes =
        mode :: failed ∧
      (build_route_with_optimization mode failed oracle places).calls =
        [mode, "driving"]) ∧
    (mode = "driving" → oracle "driving" = .timeout →
      (build_route_with_optimization mode failed oracle places).result = none ∧
      (build_route_with_optimization mode failed oracle places).calls = ["driving"] ∧
      (build_route_with_optimization mode failed oracle places).failed_modes = failed) := by
  have hil : places.isEmpty = false := by
    cases places with
    | nil => exact absurd rfl hp
    | cons a l => rfl
  refine ⟨?_, ?_, ?_⟩
  · intro h1 h2
    have hm : memS mode failed = true := (memS_iff _ _).mpr h1
    have hcalls :
        (build_route_with_optimization mode failed oracle places).calls = ["driving"] := by
      rw [build_route_with_optimization]
      rw [if_neg (by rw [hil]; exact Bool.false_ne_true)]
      simp only [if_pos (And.intro hm h2)]
      cases horacle : oracle "driving" with
      | ok m d => simp [horacle]
      | timeout => simp [horacle]
      | apiError => simp [horacle]
    refine ⟨hcalls, ?_⟩
    rw [hcalls]
    simp [h2]
  · intro h1 h2 ht
    have hm : memS mode failed = false := by
      by_contra hc
      exact h1 ((memS_iff _ _).mp (Bool.of_not_eq_false hc))
    have heff : (if memS mode failed = true ∧ mode ≠ "driving" then "driving" else mode) =
        mode := by
      rw [if_neg]
      intro hc
      rw [hm] at hc
      exact Bool.false_ne_true hc.1
    rw [build_route_with_optimization]
    rw [if_neg (by rw [hil]; exact Bool.false_ne_true)]
    simp only [heff]
    rw [ht]
    simp only [if_pos h2]
    cases horacle : oracle "driving" with
    | ok m d => simp [horacle]
    | timeout => simp [horacle]
    | apiError => simp [horacle]
  · intro h1 ht
    subst h1
    rw [build_route_with_optimization]
    rw [if_neg (by rw [hil]; exact Bool.false_ne_true)]
    have heff : (if memS "driving" failed ∧ "driving" ≠ "driving" then "driving"
        else "driving") = "driving" := by simp
    simp only [heff]
    rw [ht]
    simp

/-- Witness for C2, exercising all three parts at concrete inputs. -/
theorem claim_C2_witness :
    (build_route_with_optimization "transit"
        ["transit"] (fun _ => .ok 10000 3600) [["museum"]]).calls = ["driving"] ∧
    (build_route_with_optimization "walking" []
        (fun m => if m = "walking" then .timeout else .ok 9000 1800)
        [["park"]]).failed_modes = ["walking"] ∧
    (build_route_with_optimization "walking" []
        (fun m => if m = "walking" then .timeout else .ok 9000 1800)
        [["park"]]).calls = ["walking", "driving"] ∧
    (build_route_with_optimization "driving" [] (fun _ => .timeout)
        [["museum"]]).result = none := by
  refine ⟨?_, ?_, ?_, ?_⟩
  · exact ((claim_C2 "transit" ["transit"] (fun _ => .ok 10000 3600) [["museum"]]
      (by simp)).1 (by simp) (by decide)).1
  · exact ((claim_C2 "walking" []
      (fun m => if m = "walking" then .timeout else .ok 9000 1800) [["park"]]
      (by simp)).2.1 (by simp) (by decide) (by decide)).1
  · exact ((claim_C2 "walking" []
      (fun m => if m = "walking" then .timeout else .ok 9000 1800) [["park"]]
      (by simp)).2.1 (by simp) (by decide) (by decide)).2
  · exact ((claim_C2 "driving" [] (fun _ => .timeout) [["museum"]]
      (by simp)).2.2 rfl rfl).1

/-- **C9.** When a timeout makes the builder fall back from a non-driving
requested mode to driving, every downstream estimate of that variant is
computed from the driving mode actually used: the walking fraction is
driving's 35% and the per-stop overhead is driving's 7 minutes (420 s); the
mode fraction and overhead tables are as stated. -/
theorem claim_C9 (mode : String) (failed : List String)
    (oracle : String → DirectionsOutcome) (places : List (List String))
    (hp : places ≠ []) (h1 : mode ∉ failed) (h2 : mode ≠ "driving")
    (ht : oracle mode = .timeout) (m d : Int) (hok : oracle "driving" = .ok m d) :
    (build_route_with_optimization mode failed oracle places).result =
      some (mkEstimates "driving" m d places) ∧
    (mkEstimates "driving" m d places).effective_mode = "driving" ∧
    (mkEstimates "driving" m d places).walking_distance_km =
      (m : ℚ) / 1000 * (35 / 100) ∧
    (mkEstimates "driving" m d places).overhead_seconds =
      (places.length : Int) * 7 * 60 ∧
    (∀ x : ℚ, calculate_walking_distance x "walking" = x ∧
      calculate_walking_distance x "bicycling" = x * (20 / 100) ∧
      calculate_walking_distance x "transit" = x * (40 / 100) ∧
      calculate_walking_distance x "driving" = x * (35 / 100)) ∧
    (∀ k : Nat, _estimate_overhead k "walking" = (k : Int) * 60 ∧
      _estimate_overhead k "transit" = (k : Int) * 10 * 60 ∧
      _estimate_overhead k "bicycling" = (k : Int) * 3 * 60 ∧
      _estimate_overhead k "driving" = (k : Int) * 7 * 60) := by
  have hil : places.isEmpty = false := by
    cases places with
    | nil => exact absurd rfl hp
    | cons a l => rfl
  have hm : memS mode failed = false := by
    by_contra hc
    exact h1 ((memS_iff _ _).mp (Bool.of_not_eq_false hc))
  have heff : (if memS mode failed = true ∧ mode ≠ "driving" then "driving" else mode) =
      mode := by
    rw [if_neg]
    intro hc
    rw [hm] at hc
    exact Bool.false_ne_true hc.1
  refine ⟨?_, rfl, ?_, ?_, ?_, ?_⟩
  · rw [build_route_with_optimization]
    rw [if_neg (by rw [hil]; exact Bool.false_ne_true)]
    simp only [heff]
    rw [ht]
    simp only [if_pos h2]
    rw [hok]
  · simp [mkEstimates, calculate_walking_distance]
  · simp [mkEstimates, _estimate_overhead]
  · intro x
    refine ⟨?_, ?_, ?_, ?_⟩ <;> simp [calculate_walking_distance]
  · intro k
    refine ⟨?_, ?_, ?_, ?_⟩ <;> simp [_estimate_overhead]

/-- Witness for C9: a transit request that times out falls back to driving
and the estimates use driving's fraction and overhead. -/
theorem claim_C9_witness :
    (build_route_with_optimization "transit" []
        (fun mo => if mo = "transit" then .timeout else .ok 10000 3600)
        [["museum"], ["park"]]).result =
      some (mkEstimates "driving" 10000 3600 [["museum"], ["park"]]) ∧
    (mkEstimates "driving" 10000 3600 [["museum"], ["park"]]).walking_distance_km =
      (10000 : ℚ) / 1000 * (35 / 100) ∧
    (mkEstimates "driving" 10000 3600 [["museum"], ["park"]]).overhead_seconds =
      ((2 : Nat) : Int) * 7 * 60 := by
  have h := claim_C9 "transit" []
    (fun mo => if mo = "transit" then .timeout else .ok 10000 3600)
    [["museum"], ["park"]] (by simp) (by simp) (by decide) (by decide)
    10000 3600 (by decide)
  exact ⟨h.1, h.2.2.1, h.2.2.2.1⟩

/-! ## Claim C1: the failed-modes memory is shared, not per-call -/

/-- **C1 counterexample.**  The failed-transport-modes memory is an instance
field of the long-lived module-level `maps_service` object, so two
interleaved generation requests act on the same state.  Concretely: request B
starts (resetting the shared cache), request A's variant build times out in
transit and records `"transit"` in the shared cache, and request B's next
variant build then substitutes driving without ever trying transit — B
observes A's fallback decision, which the claim says can never happen.  With
a per-call state (fresh reset), B's identical build calls transit. -/
theorem claim_C1_counterexample :
    ((buildVariantShared "transit"
        (fun mo => if mo = "driving" then .ok 10000 3600 else .timeout)
        [["museum"]]
        (reset_failed_modes_cache MapsService.init)).1.failed_modes = ["transit"]) ∧
    ((buildVariantShared "transit" (fun _ => .ok 8000 1800) [["park"]]
        (buildVariantShared "transit"
          (fun mo => if mo = "driving" then .ok 10000 3600 else .timeout)
          [["museum"]]
          (reset_failed_modes_cache MapsService.init)).2).1.calls = ["driving"]) ∧
    ((buildVariantShared "transit" (fun _ => .ok 8000 1800) [["park"]]
        (reset_failed_modes_cache
          (buildVariantShared "transit"
            (fun mo => if mo = "driving" then .ok 10000 3600 else .timeout)
            [["museum"]]
            (reset_failed_modes_cache MapsService.init)).2)).1.calls = ["transit"]) := by
  refine ⟨?_, ?_, ?_⟩ <;>
    simp [buildVariantShared, build_route_with_optimization, reset_failed_modes_cache,
      MapsService.init, memS]

/-- **C1 as amended.**  `reset_failed_modes_cache`, called at the start of
every generate-routes call, always clears the shared cache, so the first
geometry build of a *sequential* call always attempts the requested mode,
whatever earlier calls recorded. -/
theorem claim_C1_amended (s : MapsServiceState) (mode : String)
    (oracle : String → DirectionsOutcome) (places : List (List String))
    (hp : places ≠ []) :
    (reset_failed_modes_cache s).failed_modes = [] ∧
    (build_route_with_optimization mode (reset_failed_modes_cache s).failed_modes
      oracle places).calls.head? = some mode := by
  have hil : places.isEmpty = false := by
    cases places with
    | nil => exact absurd rfl hp
    | cons a l => rfl
  refine ⟨rfl, ?_⟩
  rw [reset_failed_modes_cache]
  rw [build_route_with_optimization]
  rw [if_neg (by rw [hil]; exact Bool.false_ne_true)]
  have heff : (if memS mode [] ∧ mode ≠ "driving" then "driving" else mode) = mode := by
    simp [memS]
  simp only [heff]
  cases horacle : oracle mode with
  | ok m d => simp
  | apiError => simp
  | timeout =>
    by_cases h : mode = "driving"
    · simp [h]
    · simp only [if_pos h]
      cases oracle "driving" <;> simp

/-- Witness for C1-amended: after a previous call left `"transit"` cached,
the reset at the next call's start makes a transit build try transit. -/
theorem claim_C1_amended_witness :
    (reset_failed_modes_cache ⟨["transit"]⟩).failed_modes = [] ∧
    (build_route_with_optimization "transit"
      (reset_failed_modes_cache ⟨["transit"]⟩).failed_modes
      (fun _ => .ok 8000 1800) [["park"]]).calls.head? = some "transit" :=
  claim_C1_amended ⟨["transit"]⟩ "transit" (fun _ => .ok 8000 1800) [["park"]]
    (by simp)

/-! ## Counting lemmas for the selection strategies -/

theorem length_filter_add_not (l : List α) (p : α → Bool) :
    (l.filter p).length + (l.filter (fun x => !(p x))).length = l.length := by
  induction l with
  | nil => rfl
  | cons a rest ih => by_cases h : p a <;> simp [List.filter, h] <;> omega

theorem nodup_subset_length [DecidableEq α] {l l' : List α} (d : l.Nodup)
    (h : l ⊆ l') : l.length ≤ l'.length :=
  (List.subperm_of_subset d h).length_le

/-- At most `used.length` candidates of an id-nodup list have their id in
`used`. -/
theorem memS_filter_le (l : List Candidate) (used : List String)
    (h : (l.map Candidate.id).Nodup) :
    (l.filter (fun p => memS p.id used)).length ≤ used.length := by
  have hsub : (l.filter (fun p => memS p.id used)).map Candidate.id ⊆ used := by
    intro x hx
    rcases List.mem_map.mp hx with ⟨p, hp, rfl⟩
    exact (memS_iff _ _).mp (List.mem_filter.mp hp).2
  have hnd : ((l.filter (fun p => memS p.id used)).map Candidate.id).Nodup :=
    h.sublist ((List.filter_sublist l).map Candidate.id)
  simpa using nodup_subset_length hnd hsub

/-- At most `sel.length` candidates of a nodup list are members of `sel`. -/
theorem memC_filter_le (pool sel : List Candidate) (hnd : pool.Nodup) :
    (pool.filter (fun p => memC p sel)).length ≤ sel.length := by
  have hsub : pool.filter (fun p => memC p sel) ⊆ sel := by
    intro x hx
    exact (memC_iff _ _).mp (List.mem_filter.mp hx).2
  exact nodup_subset_length (hnd.filter _) hsub

theorem memC_append_single (q p : Candidate) (sel : List Candidate) (h : p ≠ q) :
    memC q (sel ++ [p]) = memC q sel := by
  simp [memC, List.any_append, h]

/-- The backfill loop reaches exactly `n` elements when the traversed pool is
nodup and holds enough elements outside the current selection. -/
theorem fillLoop_length (pool : List Candidate) (n : Nat) :
    ∀ sel : List Candidate, pool.Nodup → sel.length < n →
    n ≤ sel.length + (pool.filter (fun p => !(memC p sel))).length →
    (fillLoop pool sel n).length = n := by
  induction pool with
  | nil =>
    intro sel hnd hlt hcount
    simp only [List.filter_nil, List.length_nil] at hcount
    omega
  | cons p rest ih =>
    intro sel hnd hlt hcount
    rcases List.nodup_cons.mp hnd with ⟨hpn, hrest⟩
    simp only [fillLoop]
    by_cases hm : memC p sel = true
    · rw [if_pos hm, if_neg (by omega)]
      refine ih sel hrest hlt ?_
      rwa [List.filter_cons_of_neg (by simp [hm])] at hcount
    · rw [if_neg hm]
      have hm' : memC p sel = false := Bool.of_not_eq_true hm
      have hfc : ((p :: rest).filter (fun q => !(memC q sel))) =
          p :: rest.filter (fun q => !(memC q sel)) :=
        List.filter_cons_of_pos (by simp [hm'])
      have hlen2 : (sel ++ [p]).length = sel.length + 1 := by simp
      by_cases hn : n ≤ sel.length + 1
      · rw [if_pos (by omega)]
        omega
      · rw [if_neg (by omega)]
        refine ih (sel ++ [p]) hrest (by omega) ?_
        have hsame : rest.filter (fun q => !(memC q (sel ++ [p]))) =
            rest.filter (fun q => !(memC q sel)) := by
          refine List.filter_congr ?_
          intro q hq
          have hne : p ≠ q := fun h => hpn (h ▸ hq)
          rw [memC_append_single q p sel hne]
        rw [hfc] at hcount
        simp only [List.length_cons] at hcount
        rw [hsame, hlen2]
        omega

/-- The middle-range backfill loop never overfills past `n`. -/
theorem middleLoop_length_le (pool : List Candidate) (used : List String) (n : Nat) :
    ∀ sel : List Candidate, sel.length < n →
    (middleLoop pool used sel n).length ≤ n := by
  induction pool with
  | nil => intro sel h; rw [middleLoop]; omega
  | cons p rest ih =>
    intro sel h
    simp only [middleLoop]
    by_cases hb : (!(memC p sel) && !(memS p.id used)) = true
    · rw [if_pos hb]
      have hlen2 : (sel ++ [p]).length = sel.length + 1 := by simp
      by_cases hn : n ≤ sel.length + 1
      · rw [if_pos (by omega)]; omega
      · rw [if_neg (by omega)]
        exact ih (sel ++ [p]) (by omega)
    · rw [if_neg hb, if_neg (by omega)]
      exact ih sel h

/-- `closest` / `best_rated` return exactly `n` candidates when at least `n`
unused candidates are available. -/
theorem selectPreferUnused_length (ordered : List Candidate) (used : List String)
    (n : Nat) (hav : n ≤ (ordered.filter (fun p => !(memS p.id used))).length) :
    (selectPreferUnused ordered used n).length = n := by
  simp only [selectPreferUnused]
  have hlen : ((ordered.filter (fun p => !(memS p.id used))).take n).length = n := by
    rw [List.length_take]; omega
  rw [if_neg (by omega)]
  exact hlen

/-- `furthest_good` returns exactly `n` candidates whenever the traversed
distance-ordered list is nodup and holds at least `3·n` candidates (the
last-resort backfill guarantees it). -/
theorem selectFurthestGood_length (byDist : List Candidate) (poolLen : Nat)
    (used : List String) (n : Nat) (hnd : byDist.Nodup)
    (hsize : 3 * n ≤ byDist.length) :
    (selectFurthestGood byDist poolLen used n).length = n := by
  simp only [selectFurthestGood]
  set sel := (sortByRatingDesc ((byDist.drop (min (poolLen / 2) n)).filter
    (fun p => !(memS p.id used)))).take n with hsel
  have hle : sel.length ≤ n := by
    rw [hsel, List.length_take]; omega
  by_cases h1 : sel.length < n
  · rw [if_pos h1]
    set sel2 := middleLoop ((byDist.drop (min (poolLen / 2) n / 2)).take
      (min (poolLen / 2) n - min (poolLen / 2) n / 2)) used sel n with hsel2
    have hle2 : sel2.length ≤ n := by
      rw [hsel2]; exact middleLoop_length_le _ _ _ _ h1
    by_cases h2 : sel2.length < n
    · rw [if_pos h2]
      refine fillLoop_length byDist n sel2 hnd h2 ?_
      have hmem := memC_filter_le byDist sel2 hnd
      have hadd := length_filter_add_not byDist (fun p => memC p sel2)
      omega
    · rw [if_neg h2]
      omega
  · rw [if_neg h1, if_neg h1]
    omega

/-! ## Claims C4 and C5: the selection pipeline -/

/-- **C4.** For a candidate pool (deduplicated by id) holding at least `3·n`
quality candidates, each of the three strategies run in sequence selects
exactly `n` candidates. -/
theorem claim_C4 (pool : List Candidate) (n : Nat)
    (hid : (pool.map Candidate.id).Nodup) (hsize : 3 * n ≤ pool.length) :
    (runSelectionStrategies pool n).selClosest.length = n ∧
    (runSelectionStrategies pool n).selBestRated.length = n ∧
    (runSelectionStrategies pool n).selFurthest.length = n := by
  have hpoolnd : pool.Nodup := hid.of_map
  have hpermD : List.Perm (sortByDistanceAsc pool) pool := stableSortBy_perm _ pool
  have hpermR : List.Perm (sortByRatingDesc pool) pool := stableSortBy_perm _ pool
  have hDlen : (sortByDistanceAsc pool).length = pool.length := hpermD.length_eq
  have hRlen : (sortByRatingDesc pool).length = pool.length := hpermR.length_eq
  have hDnd : (sortByDistanceAsc pool).Nodup := hpermD.nodup_iff.mpr hpoolnd
  have hRidnd : ((sortByRatingDesc pool).map Candidate.id).Nodup :=
    (hpermR.map Candidate.id).nodup_iff.mpr hid
  have hfilter1 : (sortByDistanceAsc pool).filter
      (fun p => !(memS p.id ([] : List String))) = sortByDistanceAsc pool := by
    refine List.filter_eq_self.mpr ?_
    intro a _
    simp [memS]
  have hs1 : (selectPreferUnused (sortByDistanceAsc pool) [] n).length = n := by
    refine selectPreferUnused_length _ _ _ ?_
    rw [hfilter1, hDlen]; omega
  have hused1len : (addUsed [] (selectPreferUnused (sortByDistanceAsc pool) [] n)).length
      = n := by
    simp [addUsed, hs1]
  have hpos : ((sortByRatingDesc pool).filter (fun p => memS p.id
      (addUsed [] (selectPreferUnused (sortByDistanceAsc pool) [] n)))).length ≤ n := by
    refine le_trans (memS_filter_le _ _ hRidnd) ?_
    omega
  have hadd := length_filter_add_not (sortByRatingDesc pool)
    (fun p => memS p.id (addUsed [] (selectPreferUnused (sortByDistanceAsc pool) [] n)))
  have hs2 : (selectPreferUnused (sortByRatingDesc pool)
      (addUsed [] (selectPreferUnused (sortByDistanceAsc pool) [] n)) n).length = n := by
    refine selectPreferUnused_length _ _ _ ?_
    omega
  have hs3 : ∀ used : List String,
      (selectFurthestGood (sortByDistanceAsc pool) pool.length used n).length = n := by
    intro used
    refine selectFurthestGood_length _ _ _ _ hDnd ?_
    omega
  refine ⟨?_, ?_, ?_⟩ <;> simp only [runSelectionStrategies]
  · exact hs1
  · exact hs2
  · exact hs3 _

/-- Witness for C4: a 6-candidate pool with 2 requested stops gives three
2-element selections. -/
theorem claim_C4_witness :
    (runSelectionStrategies
      [⟨"a", some 4, some 100⟩, ⟨"b", some 3, some 200⟩, ⟨"c", some 5, some 300⟩,
        ⟨"d", some 2, some 400⟩, ⟨"e", some 4, some 500⟩, ⟨"f", some 1, some 600⟩]
      2).selClosest.length = 2 ∧
    (runSelectionStrategies
      [⟨"a", some 4, some 100⟩, ⟨"b", some 3, some 200⟩, ⟨"c", some 5, some 300⟩,
        ⟨"d", some 2, some 400⟩, ⟨"e", some 4, some 500⟩, ⟨"f", some 1, some 600⟩]
      2).selBestRated.length = 2 ∧
    (runSelectionStrategies
      [⟨"a", some 4, some 100⟩, ⟨"b", some 3, some 200⟩, ⟨"c", some 5, some 300⟩,
        ⟨"d", some 2, some 400⟩, ⟨"e", some 4, some 500⟩, ⟨"f", some 1, some 600⟩]
      2).selFurthest.length = 2 :=
  claim_C4
    [⟨"a", some 4, some 100⟩, ⟨"b", some 3, some 200⟩, ⟨"c", some 5, some 300⟩,
      ⟨"d", some 2, some 400⟩, ⟨"e", some 4, some 500⟩, ⟨"f", some 1, some 600⟩]
    2 (by decide) (by decide)

/-- **C5.** In a run over a pool of size ≥ 2·n, the used set consulted by
`furthest_good` contains the id of every candidate chosen by `closest` and by
`best_rated`, and the used set grows by exactly the chosen ids after each
strategy, before the next strategy runs. -/
theorem claim_C5 (pool : List Candidate) (n : Nat) (hsize : 2 * n ≤ pool.length) :
    (∀ p ∈ (runSelectionStrategies pool n).selClosest,
      p.id ∈ (runSelectionStrategies pool n).usedAfterSecond) ∧
    (∀ p ∈ (runSelectionStrategies pool n).selBestRated,
      p.id ∈ (runSelectionStrategies pool n).usedAfterSecond) ∧
    (runSelectionStrategies pool n).usedAfterFirst =
      addUsed [] (runSelectionStrategies pool n).selClosest ∧
    (runSelectionStrategies pool n).usedAfterSecond =
      addUsed (runSelectionStrategies pool n).usedAfterFirst
        (runSelectionStrategies pool n).selBestRated ∧
    (runSelectionStrategies pool n).selFurthest =
      selectFurthestGood (sortByDistanceAsc pool) pool.length
        (runSelectionStrategies pool n).usedAfterSecond n := by
  simp only [runSelectionStrategies]
  refine ⟨?_, ?_, trivial, trivial, trivial⟩
  · intro p hp
    simp only [addUsed, List.nil_append, List.mem_append]
    exact Or.inl (List.mem_map_of_mem _ hp)
  · intro p hp
    simp only [addUsed, List.nil_append, List.mem_append]
    exact Or.inr (List.mem_map_of_mem _ hp)

/-- Witness for C5: on a 6-candidate pool with 2 requested stops, the used
snapshots are exactly the accumulated chosen ids. -/
theorem claim_C5_witness :
    (runSelectionStrategies
      [⟨"a", some 4, some 100⟩, ⟨"b", some 3, some 200⟩, ⟨"c", some 5, some 300⟩,
        ⟨"d", some 2, some 400⟩, ⟨"e", some 4, some 500⟩, ⟨"f", some 1, some 600⟩]
      2).usedAfterFirst =
      addUsed [] (runSelectionStrategies
        [⟨"a", some 4, some 100⟩, ⟨"b", some 3, some 200⟩, ⟨"c", some 5, some 300⟩,
          ⟨"d", some 2, some 400⟩, ⟨"e", some 4, some 500⟩, ⟨"f", some 1, some 600⟩]
        2).selClosest ∧
    (runSelectionStrategies
      [⟨"a", some 4, some 100⟩, ⟨"b", some 3, some 200⟩, ⟨"c", some 5, some 300⟩,
        ⟨"d", some 2, some 400⟩, ⟨"e", some 4, some 500⟩, ⟨"f", some 1, some 600⟩]
      2).usedAfterSecond =
      addUsed (runSelectionStrategies
        [⟨"a", some 4, some 100⟩, ⟨"b", some 3, some 200⟩, ⟨"c", some 5, some 300⟩,
          ⟨"d", some 2, some 400⟩, ⟨"e", some 4, some 500⟩, ⟨"f", some 1, some 600⟩]
        2).usedAfterFirst
        (runSelectionStrategies
          [⟨"a", some 4, some 100⟩, ⟨"b", some 3, some 200⟩, ⟨"c", some 5, some 300⟩,
            ⟨"d", some 2, some 400⟩, ⟨"e", some 4, some 500⟩, ⟨"f", some 1, some 600⟩]
          2).selBestRated :=
  ⟨(claim_C5
      [⟨"a", some 4, some 100⟩, ⟨"b", some 3, some 200⟩, ⟨"c", some 5, some 300⟩,
        ⟨"d", some 2, some 400⟩, ⟨"e", some 4, some 500⟩, ⟨"f", some 1, some 600⟩]
      2 (by decide)).2.2.1,
    (claim_C5
      [⟨"a", some 4, some 100⟩, ⟨"b", some 3, some 200⟩, ⟨"c", some 5, some 300⟩,
        ⟨"d", some 2, some 400⟩, ⟨"e", some 4, some 500⟩, ⟨"f", some 1, some 600⟩]
      2 (by decide)).2.2.2.1⟩

/-! ## Claim C6: the assembler -/

theorem labelAt_walking (i : Nat) (r : RouteVar) :
    (labelAt i r).walking_distance = r.walking_distance := by
  rw [labelAt]; split <;> rfl

theorem key_assignLabelsFrom (i : Nat) (l : List RouteVar) :
    (assignLabelsFrom i l).map (fun r => parse_distance r.walking_distance) =
      l.map (fun r => parse_distance r.walking_distance) := by
  induction l generalizing i with
  | nil => rfl
  | cons r rest ih =>
    simp only [assignLabelsFrom, List.map_cons, ih]
    congr 1
    rw [labelAt_walking]

/-- **C6.** The assembler parses walking-distance strings with `.` and `,`
as interchangeable decimal separators (both `"4,2 km"` and `"4.2 km"` parse
to 4.2) and 0.0 on failure, sorts the built variants ascending by that value
and relabels them positionally: position 0 → `route_facile`/`Facile`,
position 1 → `route_moyen`/`Moyen`, position 2 → `route_difficile`/
`Difficile`; with fewer variants only the available positions are labelled,
in the same ascending order. -/
theorem claim_C6 :
    (parse_distance "4,2 km" = 21 / 5 ∧ parse_distance "4.2 km" = 21 / 5) ∧
    (∀ s : String, pyFloatParse? (cleanNumber s) = none → parse_distance s = 0) ∧
    (∀ r : RouteVar,
      labelAt 0 r = { r with id := "route_facile", name := "Facile" } ∧
      labelAt 1 r = { r with id := "route_moyen", name := "Moyen" } ∧
      labelAt 2 r = { r with id := "route_difficile", name := "Difficile" } ∧
      (∀ i, 3 ≤ i → labelAt i r = r)) ∧
    (∀ routes : List RouteVar,
      (assembleRoutes routes).length = routes.length ∧
      List.Perm (stableSortBy walkKeep routes) routes ∧
      ((assembleRoutes routes).map
        (fun r => parse_distance r.walking_distance)).Pairwise (· ≤ ·) ∧
      (∀ j : Nat, (assembleRoutes routes)[j]? =
        ((stableSortBy walkKeep routes)[j]?).map (labelAt j))) := by
  have hval : ∀ s : String,
      pyFloatTok? (cleanNumber s) = some (.dec ⟨false, ['4'], ['2'], 0⟩) →
      parse_distance s = 21 / 5 := by
    intro s h
    have hp : pyFloatParse? (cleanNumber s) =
        some (.finite (DecTok.toRat ⟨false, ['4'], ['2'], 0⟩)) := by
      simp [pyFloatParse?, h, PyFloatTok.val]
    rw [parse_distance, hp]
    have h4 : digitsNat ['4'] = 4 := by decide
    have h2 : digitsNat ['2'] = 2 := by decide
    rw [DecTok.toRat, h4, h2]
    norm_num
  refine ⟨⟨hval _ (by decide), hval _ (by decide)⟩, ?_, ?_, ?_⟩
  · intro s h
    rw [parse_distance, h]
  · intro r
    refine ⟨?_, ?_, ?_, ?_⟩
    · simp [labelAt, difficulty_names, difficulty_ids]
    · simp [labelAt, difficulty_names, difficulty_ids]
    · simp [labelAt, difficulty_names, difficulty_ids]
    · intro i hi
      rw [labelAt, if_neg (by omega)]
  · intro routes
    have htot : ∀ a b : RouteVar, walkKeep a b = true ∨ walkKeep b a = true := by
      intro a b
      simp only [walkKeep, decide_eq_true_eq]
      exact le_total _ _
    have htrans : ∀ a b c : RouteVar, walkKeep a b = true → walkKeep b c = true →
        walkKeep a c = true := by
      intro a b c hab hbc
      simp only [walkKeep, decide_eq_true_eq] at *
      exact le_trans hab hbc
    refine ⟨assembleRoutes_length routes, stableSortBy_perm _ _, ?_, ?_⟩
    · have hmapeq : (assembleRoutes routes).map
          (fun r => parse_distance r.walking_distance) =
          (stableSortBy walkKeep routes).map
            (fun r => parse_distance r.walking_distance) := by
        rw [assembleRoutes]
        exact key_assignLabelsFrom 0 _
      rw [hmapeq, List.pairwise_map]
      refine (stableSortBy_pairwise walkKeep htot htrans routes).imp ?_
      intro a b h
      simpa [walkKeep, decide_eq_true_eq] using h
    · intro j
      rw [assembleRoutes]
      simpa using assignLabelsFrom_get? 0 j (stableSortBy walkKeep routes)

/-- Witness for C6: an unparsable walking distance parses to 0, and positions
past the third keep their route unchanged. -/
theorem claim_C6_witness :
    parse_distance "abc" = 0 ∧
    labelAt 5 ⟨"x", "y", "z"⟩ = (⟨"x", "y", "z"⟩ : RouteVar) :=
  ⟨claim_C6.2.1 "abc" (by decide),
    (claim_C6.2.2.1 ⟨"x", "y", "z"⟩).2.2.2 5 (by decide)⟩
